import Mathlib

/-!
Verification development for a local filesystem search engine
(crawler + two index backends + BM25F-style ranking + HTTP query surface).

The definitions below are a shallow embedding of the Rust sources:
  * src/model.rs  — the `Model` trait and its two backends
                    (`InMemoryModel`, `SqliteModel`),
  * src/server.rs — the HTTP handler for POST /api/search,
  * src/main.rs   — the crawler (`add_folder_to_model`).

Conventions of the embedding:
  * filesystem paths, fields and terms are `String`s;
  * timestamps are seconds since the epoch, as `Nat`
    (the SQLite backend stores `last_modified` as an integer of seconds;
    the in-memory backend stores a `SystemTime`, which the claims only
    compare, so seconds suffice);
  * Rust `HashMap`s are association lists with unique keys; iteration
    order of a `HashMap`/`HashSet` is arbitrary in Rust, so any fixed
    canonical order is a faithful choice and we use list order /
    `List.dedup` order;
  * `f32` scores are modelled as real numbers (exact arithmetic);
    the literals 0.5, 0.75, 1.5, 2.0 are exactly representable in `f32`,
    so the formula structure is preserved;
  * SQL tables are lists of rows; `UNIQUE` constraints are checked by the
    embedded `INSERT`s, and a failing statement makes the operation return
    `Except.error ()`, matching the `Result<_, ()>` of the source.
-/

/-- Modelled from the spec: the repository's tokenizer lives in
`src/lexer.rs` (with an optional snowball stemmer in `src/snowball.rs`),
neither of which is present under `src/`.  This function follows spec
section 4.1: skip whitespace; a maximal run of decimal digits is emitted
unchanged; a maximal run of letters is emitted uppercased (stemming is the
optional extra and is modelled as off, matching the spec's default for the
concrete scenarios); any other character is emitted as a one-character
term.  A fuel argument (the input length bounds the number of emitted
tokens) keeps the recursion structural. -/
def tokenizeFuel : Nat → List Char → List String
  | 0, _ => []
  | _ + 1, [] => []
  | fuel + 1, c :: cs =>
    if c.isWhitespace then
      tokenizeFuel fuel cs
    else if c.isDigit then
      String.mk (c :: cs.takeWhile Char.isDigit) ::
        tokenizeFuel fuel (cs.dropWhile Char.isDigit)
    else if c.isAlpha then
      String.mk ((c :: cs.takeWhile Char.isAlpha).map Char.toUpper) ::
        tokenizeFuel fuel (cs.dropWhile Char.isAlpha)
    else
      String.mk [c] :: tokenizeFuel fuel cs

/-- Modelled from the spec: the tokenizer over a finite character
sequence; every step of `tokenizeFuel` consumes at least one character,
so `l.length` fuel is enough. -/
def tokenize (l : List Char) : List String :=
  tokenizeFuel l.length l

/-- Lookup in an association list (the embedding of `HashMap::get`):
first entry with the given key. -/
def assocLookup {α β : Type} [DecidableEq α] : List (α × β) → α → Option β
  | [], _ => none
  | e :: es, k => if e.1 = k then some e.2 else assocLookup es k

/-- Removal of a key from an association list
(the embedding of `HashMap::remove` / SQL `DELETE ... WHERE key = k`). -/
def eraseKey {α β : Type} [DecidableEq α] (l : List (α × β)) (k : α) :
    List (α × β) :=
  l.filter (fun e => decide (e.1 ≠ k))

/-- Term-frequency table of a token stream: the embedding of the loop
`for token in Lexer::new(..) { *tf.entry(token).or_insert(0) += 1 }`.
Every stored frequency is the number of occurrences of the term, and only
terms that occur are stored. -/
def tfListOf (toks : List String) : List (String × Nat) :=
  toks.dedup.map (fun t => (t, toks.count t))

/-- Per-field data of a stored document: the term-frequency table and the
field length in tokens (`FieldData = (TermFreq, usize)` in model.rs). -/
abbrev FieldData : Type := List (String × Nat) × Nat

/-- A stored document (`Doc` in model.rs): its fields and the
last-modified timestamp. -/
structure Doc where
  fields : List (String × FieldData)
  lastModified : Nat
deriving DecidableEq

/-- The in-memory backend's persistent state (`InMemoryModel` in
model.rs): the path→document map and the document-frequency map.
The `idf_cache` and `avg_field_length` fields of the Rust struct are
serde-skipped derived state, rebuilt by `update_cache` after every add
and remove; they are modelled as the derived functions
`inMemoryIdfCacheList` and `inMemoryAvgFieldLengthList` below. -/
structure InMemoryModel where
  docs : List (String × Doc)
  df : List (String × Nat)
deriving DecidableEq

/-- The fresh in-memory model (`InMemoryModel::default()`). -/
def emptyInMemory : InMemoryModel := ⟨[], []⟩

/-- Set of distinct terms of a stored document, across all fields: the
embedding of the `seen_terms` loop of `InMemoryModel::remove_document`. -/
def docTermsOf (d : Doc) : List String :=
  (d.fields.flatMap (fun fd => fd.2.1.map (fun e => e.1))).dedup

/-- One `*self.df.entry(term).or_insert(0) += 1` step: increment an
existing entry in place, or append a fresh entry with count 1. -/
def dfIncrementOne (df : List (String × Nat)) (t : String) :
    List (String × Nat) :=
  if (assocLookup df t).isSome then
    df.map (fun e => if e.1 = t then (e.1, e.2 + 1) else e)
  else
    df ++ [(t, 1)]

/-- Increment the document-frequency entry of every term in `uniq`. -/
def dfIncrementAll (df : List (String × Nat)) (uniq : List String) :
    List (String × Nat) :=
  uniq.foldl dfIncrementOne df

/-- Embedding of `InMemoryModel::remove_document` (model.rs:555-571):
if a document is stored at the path, drop it and decrement the
document-frequency entry of each of its distinct terms with saturating
subtraction (`Nat` subtraction saturates); entries never present are left
alone, entries reaching zero stay present at zero.  `update_cache` is
derived state and has no counterpart in this record. -/
def inMemoryRemoveDocument (m : InMemoryModel) (p : String) :
    InMemoryModel :=
  match assocLookup m.docs p with
  | none => m
  | some d =>
    { docs := eraseKey m.docs p,
      df := m.df.map
        (fun e => if e.1 ∈ docTermsOf d then (e.1, e.2 - 1) else e) }

/-- Embedding of `InMemoryModel::add_document` (model.rs:531-553):
remove any previous document at the path, tokenize every supplied field,
store the per-field term frequencies and lengths, and increment the
document frequency of every distinct term of the new document. -/
def inMemoryAddDocument (m : InMemoryModel) (p : String) (t : Nat)
    (fields : List (String × List Char)) : InMemoryModel :=
  let m1 := inMemoryRemoveDocument m p
  let docFields : List (String × FieldData) :=
    fields.map (fun fc => (fc.1, (tfListOf (tokenize fc.2), (tokenize fc.2).length)))
  let uniq := (fields.flatMap (fun fc => tokenize fc.2)).dedup
  { docs := m1.docs ++ [(p, ⟨docFields, t⟩)],
    df := dfIncrementAll m1.df uniq }

/-- Embedding of `InMemoryModel::requires_reindexing` (model.rs:613-618):
true iff no document is stored at the path or the stored timestamp is
strictly smaller than the supplied one. -/
def inMemoryRequiresReindexing (m : InMemoryModel) (p : String) (t : Nat) :
    Bool :=
  match assocLookup m.docs p with
  | some d => decide (d.lastModified < t)
  | none => true

/-- Field weights of the ranking (`weights_for_fields` in model.rs). -/
noncomputable def weightsForFields (field : String) : ℝ :=
  match field with
  | "name" => 2
  | "content" => 1
  | "extension" => 1 / 2
  | _ => 1

/-- Per-field length-normalization constant (`b_for_field` in model.rs):
0.75 for every field, written as the same four-armed match. -/
noncomputable def bForField (field : String) : ℝ :=
  match field with
  | "name" => 3 / 4
  | "content" => 3 / 4
  | "extension" => 3 / 4
  | _ => 3 / 4

/-- Derived idf cache of the in-memory backend: the embedding of the
`self.df` loop of `InMemoryModel::update_cache` (model.rs:514-522).
For a recorded document frequency `n > 0` the cached value is
`ln(total_docs / n)`; a recorded frequency of 0 caches the value 0. -/
noncomputable def inMemoryIdfCacheList (m : InMemoryModel) :
    List (String × ℝ) :=
  m.df.map (fun e =>
    (e.1, if 0 < e.2 then Real.log ((m.docs.length : ℝ) / (e.2 : ℝ)) else 0))

/-- One step of the field-length totals accumulation of
`InMemoryModel::update_cache`: add `len` to the running total of `f` and
bump its document count. -/
def bumpFieldTotal (acc : List (String × Nat × Nat)) (f : String)
    (len : Nat) : List (String × Nat × Nat) :=
  if (assocLookup acc f).isSome then
    acc.map (fun e => if e.1 = f then (e.1, e.2.1 + len, e.2.2 + 1) else e)
  else
    acc ++ [(f, len, 1)]

/-- Field totals over all stored documents (per field: summed length and
number of documents carrying the field), as accumulated by
`InMemoryModel::update_cache`. -/
def fieldTotals (m : InMemoryModel) : List (String × Nat × Nat) :=
  m.docs.foldl
    (fun acc pd =>
      pd.2.fields.foldl (fun acc2 fe => bumpFieldTotal acc2 fe.1 fe.2.2) acc)
    []

/-- Derived average-field-length cache of the in-memory backend
(model.rs:504-513): mean token count per field over the documents that
carry the field. -/
noncomputable def inMemoryAvgFieldLengthList (m : InMemoryModel) :
    List (String × ℝ) :=
  (fieldTotals m).map (fun e =>
    (e.1, if 0 < e.2.2 then (e.2.1 : ℝ) / (e.2.2 : ℝ) else 0))

/-- The idf value the in-memory `search_query` uses for a token
(model.rs:599-601): the cached value when the token has a
document-frequency entry, otherwise the fallback `ln(total_docs / 1.0)`. -/
noncomputable def inMemoryIdfForToken (m : InMemoryModel) (t : String) : ℝ :=
  (assocLookup (inMemoryIdfCacheList m) t).getD
    (Real.log ((m.docs.length : ℝ) / 1))

/-- BM25F score of one stored document for a token list: the embedding of
the scoring loop of `InMemoryModel::search_query` (model.rs:582-604).
Zero-frequency fields are skipped; the aggregated normalized frequency is
saturated with `k1 = 1.5`; a token with zero aggregate contributes
nothing. -/
noncomputable def inMemoryScoreDoc (m : InMemoryModel) (tokens : List String)
    (d : Doc) : ℝ :=
  tokens.foldl
    (fun score tok =>
      let aggregate := d.fields.foldl
        (fun acc fe =>
          let fn : Nat := (assocLookup fe.2.1 tok).getD 0
          if fn = 0 then acc
          else
            let avgLen :=
              (assocLookup (inMemoryAvgFieldLengthList m) fe.1).getD
                ((fe.2.2 : ℝ))
            let normTf :=
              (fn : ℝ) / (1 + bForField fe.1 * ((fe.2.2 : ℝ) / avgLen - 1))
            acc + weightsForFields fe.1 * normTf)
        0
      if aggregate = 0 then score
      else
        score +
          inMemoryIdfForToken m tok *
            (aggregate * (3 / 2 + 1)) / (aggregate + 3 / 2))
    0

/-- Stable descending insertion by score: a later element with a score
equal to an already placed one stays after it, so the sort below is the
stable descending sort of the source's `sort_by(partial_cmp)`. -/
noncomputable def insertByScore (x : String × ℝ) :
    List (String × ℝ) → List (String × ℝ)
  | [] => [x]
  | y :: ys => if y.2 < x.2 then x :: y :: ys else y :: insertByScore x ys

/-- Sort a scored list in descending score order (model.rs:609 and
model.rs:420).  Real-number scores are totally ordered, so the partial
comparison of the source never fails here; the NaN questions of the `f32`
original are outside this embedding. -/
noncomputable def sortByScoreDesc (l : List (String × ℝ)) :
    List (String × ℝ) :=
  l.foldl (fun acc x => insertByScore x acc) []

/-- Result list of the in-memory `search_query` (model.rs:573-611): empty
for an empty token stream, otherwise every stored document scored and
sorted descending.  The `!score.is_nan()` guard of the source filters an
`f32` NaN, which does not exist for real-valued scores, so every document
is kept. -/
noncomputable def inMemorySearchCore (m : InMemoryModel) (q : List Char) :
    List (String × ℝ) :=
  let tokens := tokenize q
  if tokens = [] then []
  else
    sortByScoreDesc (m.docs.map (fun pd => (pd.1, inMemoryScoreDoc m tokens pd.2)))

/-- State-passing form of `InMemoryModel::search_query`: the method takes
`&self` and `InMemoryModel` has no interior mutability, so the state
component is the input state and the payload is always `Ok`. -/
noncomputable def inMemorySearchQuery (m : InMemoryModel) (q : List Char) :
    InMemoryModel × Except Unit (List (String × ℝ)) :=
  (m, Except.ok (inMemorySearchCore m q))

/-- Row of the `Documents` table:
`Documents(id PK, path UNIQUE, last_modified)`. -/
structure DocRow where
  id : Nat
  path : String
  lastModified : Nat
deriving DecidableEq

/-- Row of the `TermFreq` table:
`TermFreq(term, doc_id, field, freq, UNIQUE(term, doc_id, field))`. -/
structure TermFreqRow where
  term : String
  docId : Nat
  field : String
  freq : Nat
deriving DecidableEq

/-- Row of the `DocumentField` table:
`DocumentField(doc_id, field, field_term_count, UNIQUE(doc_id, field))`. -/
structure DocFieldRow where
  docId : Nat
  field : String
  count : Nat
deriving DecidableEq

/-- The SQLite backend's state (`SqliteModel` in model.rs): the four
tables of the fixed schema, plus the three `RefCell`ed caches that
`update_cache` fills (each starts as `None` and is `Some` after the first
`update_cache`).  `DocFreq.freq` is a signed SQLite integer: the
`UPDATE DocFreq SET freq = freq - 1` of `remove_document` can drive it
below zero, so it is an `Int` here. -/
structure SqliteModel where
  documents : List DocRow
  termFreq : List TermFreqRow
  docFreq : List (String × Int)
  documentField : List DocFieldRow
  idfCache : Option (List (String × ℝ))
  avgdl : Option (List (String × ℝ))
  totalDocsCache : Option ℝ

/-- State of a fresh database right after `SqliteModel::open`: empty
tables, and the caches filled by the `update_cache` call at the end of
`open`. -/
noncomputable def emptySqlite : SqliteModel :=
  ⟨[], [], [], [], some [], some [], some 0⟩

/-- Average `field_term_count` per field over the whole `DocumentField`
table: the embedding of
`SELECT field, AVG(field_term_count) FROM DocumentField GROUP BY field`
in `SqliteModel::update_cache`.  Orphaned rows (left behind by
`remove_document`, which never deletes from `DocumentField`) take part in
the average, exactly as in the source. -/
noncomputable def avgFieldLengthRows (rows : List DocFieldRow) :
    List (String × ℝ) :=
  ((rows.map (fun r => r.field)).dedup).map (fun f =>
    let matching := rows.filter (fun r => r.field == f)
    (f, ((matching.map (fun r => r.count)).sum : ℝ) / (matching.length : ℝ)))

/-- Embedding of `SqliteModel::update_cache` (model.rs:90-143): the total
document count, the per-field average field length, and the per-term idf
`ln((N − df + 0.5) / (df + 0.5))` for positive recorded document
frequency (0 otherwise) are recomputed from the tables and stored in the
caches. -/
noncomputable def sqliteUpdateCache (m : SqliteModel) : SqliteModel :=
  let n : ℝ := (m.documents.length : ℝ)
  { m with
    totalDocsCache := some n,
    avgdl := some (avgFieldLengthRows m.documentField),
    idfCache := some (m.docFreq.map (fun e =>
      (e.1,
        if (0 : Int) < e.2 then
          Real.log ((n - (e.2 : ℝ) + 1 / 2) / ((e.2 : ℝ) + 1 / 2))
        else 0))) }

/-- The idf value the SQLite `search_query` uses for one result row
(model.rs:413): the cached value for the row's term when present,
otherwise the BM25 formula recomputed from the row's `df` column and the
cached total document count. -/
noncomputable def sqliteIdfForToken (m : SqliteModel) (t : String)
    (dfv : Int) : ℝ :=
  (assocLookup (m.idfCache.getD []) t).getD
    (Real.log
      ((m.totalDocsCache.getD 0 - (dfv : ℝ) + 1 / 2) / ((dfv : ℝ) + 1 / 2)))

/-- Decrement every `DocFreq` row of a term by one: the embedding of
`UPDATE DocFreq SET freq = freq - 1 WHERE term = :term`.  Signed
subtraction: the stored frequency can go negative. -/
def decDocFreq (df : List (String × Int)) (t : String) :
    List (String × Int) :=
  df.map (fun e => if e.1 = t then (e.1, e.2 - 1) else e)

/-- Embedding of `SqliteModel::remove_document` (model.rs:274-350).
The first `Documents` row with the path is selected; if none exists the
state is returned untouched.  Otherwise `DocFreq` is decremented once per
`TermFreq` row of the document — that is, once per (term, field) pair,
not once per distinct term — and the document's `TermFreq` and
`Documents` rows are deleted.  No `DELETE` ever touches `DocumentField`,
so its rows for the removed document stay behind, exactly as in the
source. -/
def sqliteRemoveDocument (m : SqliteModel) (p : String) : SqliteModel :=
  match m.documents.find? (fun d => d.path == p) with
  | none => m
  | some doc =>
    let rows := m.termFreq.filter (fun r => r.docId == doc.id)
    { m with
      docFreq := rows.foldl (fun acc r => decDocFreq acc r.term) m.docFreq,
      termFreq := m.termFreq.filter (fun r => !(r.docId == doc.id)),
      documents := m.documents.filter (fun d => !(d.id == doc.id)) }

/-- Fresh SQLite rowid for an `INSERT INTO Documents` row: one more than
the largest rowid currently in the table (so ids are reused after the
newest document is removed, as in SQLite). -/
def freshRowId (docs : List DocRow) : Nat :=
  docs.foldl (fun a d => max a d.id) 0 + 1

/-- Embedding of `SqliteModel::add_document` (model.rs:165-272).
The operation removes any previous row set for the path, inserts the new
`Documents` row, and then — per field — one `DocumentField` row and one
`TermFreq` row per distinct term, finally incrementing `DocFreq` (via
`INSERT OR REPLACE`) for every distinct term of the document.  Each plain
`INSERT` first checks the table's `UNIQUE` constraint; a violation makes
the SQLite statement fail, which the source maps to `Err(())`.  The
source wraps all of this in `BEGIN`/`COMMIT` but never rolls back on
error; the error case here simply reports the failure. -/
def sqliteAddDocument (m : SqliteModel) (p : String) (t : Nat)
    (fields : List (String × List Char)) : Except Unit SqliteModel := do
  let m1 := sqliteRemoveDocument m p
  if m1.documents.any (fun d => d.path == p) then throw () else
  let docId := freshRowId m1.documents
  let m2 : SqliteModel :=
    { m1 with documents := m1.documents ++ [⟨docId, p, t⟩] }
  let m3 ← fields.foldlM
    (fun (acc : SqliteModel) fc => do
      let toks := tokenize fc.2
      if acc.documentField.any
          (fun r => r.docId == docId && r.field == fc.1) then throw () else
      let acc1 : SqliteModel :=
        { acc with
          documentField := acc.documentField ++ [⟨docId, fc.1, toks.length⟩] }
      (tfListOf toks).foldlM
        (fun (a2 : SqliteModel) te => do
          if a2.termFreq.any
              (fun r =>
                r.term == te.1 && r.docId == docId && r.field == fc.1) then
            throw ()
          else
            pure { a2 with
              termFreq := a2.termFreq ++ [⟨te.1, docId, fc.1, te.2⟩] })
        acc1)
    m2
  let uniq := (fields.flatMap (fun fc => tokenize fc.2)).dedup
  pure (uniq.foldl
    (fun (acc : SqliteModel) tm =>
      let cur := (assocLookup acc.docFreq tm).getD 0
      { acc with docFreq := eraseKey acc.docFreq tm ++ [(tm, cur + 1)] })
    m3)

/-- Embedding of `SqliteModel::requires_reindexing` (model.rs:424-449):
true iff no `Documents` row carries the path or the stored
`last_modified` is strictly smaller than the supplied one. -/
def sqliteRequiresReindexing (m : SqliteModel) (p : String) (t : Nat) :
    Bool :=
  match m.documents.find? (fun d => d.path == p) with
  | some d => decide (d.lastModified < t)
  | none => true

/-- One joined result row of the SQLite search query: path, field, field
length, term frequency, document frequency, and the matched term, as
selected by the four-way join of `SqliteModel::search_query`. -/
structure JoinRow where
  path : String
  field : String
  fieldLength : Nat
  tf : Nat
  df : Int
  term : String

/-- The joined row stream of the SQLite search (model.rs:366-376): every
`TermFreq` row whose term is one of the query tokens, inner-joined with
`Documents` (on id), `DocFreq` (on term) and `DocumentField` (on id and
field); the `UNIQUE` constraints make each joined lookup at most one row,
modelled with `find?` / `assocLookup`. -/
def sqliteJoinRows (m : SqliteModel) (tokens : List String) :
    List JoinRow :=
  m.termFreq.filterMap (fun r =>
    if r.term ∈ tokens then
      match m.documents.find? (fun d => d.id == r.docId) with
      | none => none
      | some d =>
        match assocLookup m.docFreq r.term with
        | none => none
        | some dfv =>
          match m.documentField.find?
              (fun fr => fr.docId == r.docId && fr.field == r.field) with
          | none => none
          | some fr => some ⟨d.path, r.field, fr.count, r.freq, dfv, r.term⟩
    else none)

/-- BM25F contribution of one joined row (model.rs:409-415): normalize
the term frequency by field length against the cached average (falling
back to the row's own field length), weight it, saturate with
`k1 = 1.5`, and multiply by the term's idf. -/
noncomputable def sqliteRowContribution (m : SqliteModel) (row : JoinRow) :
    ℝ :=
  let avgLen :=
    (assocLookup (m.avgdl.getD []) row.field).getD ((row.fieldLength : ℝ))
  let normTf :=
    (row.tf : ℝ) / (1 + bForField row.field * ((row.fieldLength : ℝ) / avgLen - 1))
  let weightedTf := normTf * weightsForFields row.field
  sqliteIdfForToken m row.term row.df *
    ((weightedTf * (3 / 2 + 1)) / (weightedTf + 3 / 2))

/-- Accumulate one row's contribution into the per-path score map:
the embedding of `*scores.entry(doc_path).or_insert(0f32) += c`. -/
noncomputable def addScore (acc : List (String × ℝ)) (p : String) (c : ℝ) :
    List (String × ℝ) :=
  if (assocLookup acc p).isSome then
    acc.map (fun e => if e.1 = p then (e.1, e.2 + c) else e)
  else
    acc ++ [(p, c)]

/-- Aggregated scores over all joined rows (model.rs:387-418). -/
noncomputable def sqliteScoreRows (m : SqliteModel) (rows : List JoinRow) :
    List (String × ℝ) :=
  rows.foldl (fun acc row => addScore acc row.path (sqliteRowContribution m row)) []

/-- State-passing embedding of `SqliteModel::search_query`
(model.rs:352-422): `update_cache` refreshes the three caches first (the
interior mutation the `RefCell`s allow), then an empty token stream
returns an empty result, and otherwise the joined rows are scored,
aggregated per document and sorted descending.  The tables themselves are
only read. -/
noncomputable def sqliteSearchQuery (m : SqliteModel) (q : List Char) :
    SqliteModel × Except Unit (List (String × ℝ)) :=
  let m1 := sqliteUpdateCache m
  (m1,
    if tokenize q = [] then Except.ok []
    else
      Except.ok (sortByScoreDesc (sqliteScoreRows m1 (sqliteJoinRows m1 (tokenize q)))))

/-- Projection used by the concrete evaluations: the `DocFreq` table of a
successful operation result. -/
def sqliteDocFreqOf : Except Unit SqliteModel → Option (List (String × Int))
  | Except.ok m => some m.docFreq
  | Except.error _ => none

/-- Projection used by the concrete evaluations: the `Documents` table of
a successful operation result. -/
def sqliteDocumentsOf : Except Unit SqliteModel → Option (List DocRow)
  | Except.ok m => some m.documents
  | Except.error _ => none

/-- Projection used by the concrete evaluations: the `DocumentField`
table of a successful operation result. -/
def sqliteDocumentFieldOf :
    Except Unit SqliteModel → Option (List DocFieldRow)
  | Except.ok m => some m.documentField
  | Except.error _ => none

/-- Whether an embedded SQLite operation succeeded. -/
def isSqlOk : Except Unit SqliteModel → Bool
  | Except.ok _ => true
  | Except.error _ => false

/-- Whether an embedded SQLite operation failed. -/
def isSqlErr : Except Unit SqliteModel → Bool
  | Except.ok _ => false
  | Except.error _ => true

/-- Shape of an HTTP response as far as the search API claims observe it:
the status code, the Content-Type header when one is set, and — for a
successful search — the list of (path, score) pairs the JSON body
serializes. -/
structure HttpResponse where
  status : Nat
  contentType : Option String
  results : Option (List (String × ℝ))

/-- Embedding of `serve_api_search` (server.rs:24-55).  The body
parameter is the outcome of `str::from_utf8` on the request body
(`none` = the body was not valid UTF-8); `searchFn` is the shared
model's `search_query`.  An undecodable body yields 400; a search error
yields 500; otherwise the response is 200 with
`application/json; charset=utf-8` and the first 20 pairs of the result
list. -/
noncomputable def serveApiSearch (body : Option (List Char))
    (searchFn : List Char → Except Unit (List (String × ℝ))) :
    HttpResponse :=
  match body with
  | none => ⟨400, none, none⟩
  | some q =>
    match searchFn q with
    | Except.error _ => ⟨500, none, none⟩
    | Except.ok r =>
      ⟨200, some "application/json; charset=utf-8", some (r.take 20)⟩

/-- Lookup of a key that no entry carries fails. -/
theorem assocLookup_eq_none {α β : Type} [DecidableEq α]
    (l : List (α × β)) (k : α) :
    assocLookup l k = none ↔ ∀ e ∈ l, e.1 ≠ k := by
  induction l with
  | nil => simp [assocLookup]
  | cons e es ih =>
    by_cases h : e.1 = k <;> simp [assocLookup, h, ih]

/-- Two-document in-memory corpus used by the concrete instances:
`add("a.txt", 1, { content: "x" })` then `add("b.txt", 1, { content: "y" })`
starting from the fresh model. -/
def twoDocMemory : InMemoryModel :=
  inMemoryAddDocument
    (inMemoryAddDocument emptyInMemory "a.txt" 1 [("content", ['x'])])
    "b.txt" 1 [("content", ['y'])]

/-- Two-document SQLite corpus used by the concrete instances: the state
reached from a fresh database by `add("a.txt", 1, { content: "x" })` and
`add("b.txt", 1, { content: "y" })` (see `twoDocSqlite_reachable`). -/
noncomputable def twoDocSqlite : SqliteModel :=
  ⟨[⟨1, "a.txt", 1⟩, ⟨2, "b.txt", 1⟩],
    [⟨"X", 1, "content", 1⟩, ⟨"Y", 2, "content", 1⟩],
    [("X", 1), ("Y", 1)],
    [⟨1, "content", 1⟩, ⟨2, "content", 1⟩],
    some [], some [], some 0⟩

/-- Lookup in the mapped list that builds the in-memory idf cache. -/
theorem assocLookup_idfMap (df : List (String × Nat)) (N : ℝ) (t : String) :
    assocLookup
        (df.map (fun e =>
          (e.1, if 0 < e.2 then Real.log (N / (e.2 : ℝ)) else 0))) t
      = (assocLookup df t).map
          (fun n => if 0 < n then Real.log (N / (n : ℝ)) else 0) := by
  induction df with
  | nil => simp [assocLookup]
  | cons e es ih =>
    by_cases h : e.1 = t <;> simp [assocLookup, h, ih]

/-- Lookup in the mapped list that builds the SQLite idf cache. -/
theorem assocLookup_sqliteIdfMap (df : List (String × Int)) (N : ℝ)
    (t : String) :
    assocLookup
        (df.map (fun e =>
          (e.1,
            if (0 : Int) < e.2 then
              Real.log ((N - (e.2 : ℝ) + 1 / 2) / ((e.2 : ℝ) + 1 / 2))
            else 0))) t
      = (assocLookup df t).map
          (fun d =>
            if (0 : Int) < d then
              Real.log ((N - (d : ℝ) + 1 / 2) / ((d : ℝ) + 1 / 2))
            else 0) := by
  induction df with
  | nil => simp [assocLookup]
  | cons e es ih =>
    by_cases h : e.1 = t
    · simp [assocLookup, h]
    · simpa [assocLookup, h] using ih

/-- With pairwise-distinct keys (the `HashMap` invariant), a successful
lookup is exactly membership of the key-value pair. -/
theorem assocLookup_eq_some_iff_mem {α β : Type} [DecidableEq α]
    (l : List (α × β)) (k : α) (v : β)
    (hnd : (l.map (fun e => e.1)).Nodup) :
    assocLookup l k = some v ↔ (k, v) ∈ l := by
  induction l with
  | nil => simp [assocLookup]
  | cons e es ih =>
    simp only [List.map_cons, List.nodup_cons] at hnd
    rcases e with ⟨a, b⟩
    by_cases h : a = k
    · subst h
      rw [show assocLookup ((a, b) :: es) a = some b by simp [assocLookup]]
      simp only [Option.some.injEq, List.mem_cons, Prod.mk.injEq,
        eq_self_iff_true, true_and]
      constructor
      · intro h'
        exact Or.inl h'.symm
      · rintro (h' | h')
        · exact h'.symm
        · exact absurd (List.mem_map.mpr ⟨(a, v), h', rfl⟩) hnd.1
    · rw [show assocLookup ((a, b) :: es) k = assocLookup es k by
          simp [assocLookup, h],
        ih hnd.2, List.mem_cons]
      constructor
      · exact fun h' => Or.inr h'
      · rintro (h' | h')
        · injection h' with h1 h2
          exact absurd h1.symm h
        · exact h'

/-- The tokenizer consumes an all-whitespace input without emitting a
token, for any amount of fuel. -/
theorem tokenizeFuel_whitespace (fuel : Nat) (l : List Char)
    (h : ∀ c ∈ l, c.isWhitespace = true) : tokenizeFuel fuel l = [] := by
  induction fuel generalizing l with
  | zero => rfl
  | succ fuel ih =>
    cases l with
    | nil => rfl
    | cons c cs =>
      have hc : c.isWhitespace = true := h c (List.mem_cons_self c cs)
      simp only [tokenizeFuel, hc, if_pos]
      exact ih cs (fun d hd => h d (List.mem_cons_of_mem c hd))

/-- An empty or all-whitespace character sequence tokenizes to no
tokens (spec section 4.1: whitespace is skipped). -/
theorem tokenize_whitespace (l : List Char)
    (h : ∀ c ∈ l, c.isWhitespace = true) : tokenize l = [] :=
  tokenizeFuel_whitespace l.length l h

/-- The in-memory idf cache holds `ln(N / n)` for a term recorded with
document frequency `n > 0` (model.rs:514-522). -/
theorem inMemoryIdf_of_lookup (m : InMemoryModel) (t : String) (n : Nat)
    (hl : assocLookup m.df t = some n) (hn : 0 < n) :
    inMemoryIdfForToken m t = Real.log ((m.docs.length : ℝ) / (n : ℝ)) := by
  unfold inMemoryIdfForToken inMemoryIdfCacheList
  rw [assocLookup_idfMap, hl]
  simp [hn]

/-- A term with no document-frequency entry gets the fallback idf
`ln(total_docs / 1.0)` in the in-memory search (model.rs:599-601). -/
theorem inMemoryIdf_of_none (m : InMemoryModel) (t : String)
    (hl : assocLookup m.df t = none) :
    inMemoryIdfForToken m t = Real.log ((m.docs.length : ℝ) / 1) := by
  unfold inMemoryIdfForToken inMemoryIdfCacheList
  rw [assocLookup_idfMap, hl]
  rfl

/-- After `update_cache`, the SQLite idf cache holds the BM25 value
`ln((N − d + 0.5) / (d + 0.5))` for a term whose `DocFreq` row records a
positive frequency `d` (model.rs:124-141). -/
theorem sqliteIdf_after_update (m : SqliteModel) (t : String) (d : Int)
    (hl : assocLookup m.docFreq t = some d) (hd : 0 < d) :
    sqliteIdfForToken (sqliteUpdateCache m) t d
      = Real.log
          (((m.documents.length : ℝ) - (d : ℝ) + 1 / 2) / ((d : ℝ) + 1 / 2)) := by
  unfold sqliteIdfForToken sqliteUpdateCache
  simp only [Option.getD_some]
  rw [assocLookup_sqliteIdfMap, hl]
  simp [hd]

/-- The literal two-document SQLite state is the one the two adds reach
from a fresh database (witnessed table by table; the caches of both sides
are the ones `open` computed, untouched by `add_document`). -/
theorem twoDocSqlite_reachable :
    sqliteDocFreqOf
        ((sqliteAddDocument emptySqlite "a.txt" 1 [("content", ['x'])]).bind
          (fun m => sqliteAddDocument m "b.txt" 1 [("content", ['y'])]))
      = some twoDocSqlite.docFreq
    ∧ sqliteDocumentsOf
        ((sqliteAddDocument emptySqlite "a.txt" 1 [("content", ['x'])]).bind
          (fun m => sqliteAddDocument m "b.txt" 1 [("content", ['y'])]))
      = some twoDocSqlite.documents
    ∧ sqliteDocumentFieldOf
        ((sqliteAddDocument emptySqlite "a.txt" 1 [("content", ['x'])]).bind
          (fun m => sqliteAddDocument m "b.txt" 1 [("content", ['y'])]))
      = some twoDocSqlite.documentField := by
  refine ⟨by decide, by decide, by decide⟩

/-- C1: on the SQLite backend, adding a document whose single term "X"
appears in two fields and then removing it leaves `DocFreq["X"] = -1`
instead of 0: `remove_document` decrements once per (term, field) row of
`TermFreq`, not once per distinct term, while the corpus afterwards holds
no document at all (the `Documents` table is empty).  The in-memory
backend run on the same operations is correct: its document-frequency
entry ends at 0 with no document stored. -/
theorem c1_sqlite_docfreq_overdecrement :
    sqliteDocFreqOf
        ((sqliteAddDocument emptySqlite "a.txt" 1
            [("name", ['x']), ("content", ['x'])]).map
          (fun m => sqliteRemoveDocument m "a.txt"))
      = some [("X", -1)]
    ∧ sqliteDocumentsOf
        ((sqliteAddDocument emptySqlite "a.txt" 1
            [("name", ['x']), ("content", ['x'])]).map
          (fun m => sqliteRemoveDocument m "a.txt"))
      = some []
    ∧ inMemoryRemoveDocument
        (inMemoryAddDocument emptyInMemory "a.txt" 1
          [("name", ['x']), ("content", ['x'])]) "a.txt"
      = ⟨[], [("X", 0)]⟩ := by
  refine ⟨by decide, by decide, by decide⟩

/-- C2 (amended): the idf an in-memory search uses for a term recorded
with document frequency n > 0 is ln(N / n), and ln(N / 1) is only the
fallback for terms with no document-frequency entry; the SQLite backend
is the one that uses the BM25 form ln((N − n + 0.5) / (n + 0.5)) for a
`DocFreq` row with positive recorded frequency. -/
theorem c2_idf_formulas :
    ∀ (mi : InMemoryModel) (ms : SqliteModel) (t : String) (n : Nat)
      (d : Int),
      (assocLookup mi.df t = some n → 0 < n →
        inMemoryIdfForToken mi t
          = Real.log ((mi.docs.length : ℝ) / (n : ℝ)))
      ∧ (assocLookup mi.df t = none →
        inMemoryIdfForToken mi t = Real.log ((mi.docs.length : ℝ) / 1))
      ∧ (assocLookup ms.docFreq t = some d → 0 < d →
        sqliteIdfForToken (sqliteUpdateCache ms) t d
          = Real.log
              (((ms.documents.length : ℝ) - (d : ℝ) + 1 / 2) /
                ((d : ℝ) + 1 / 2))) :=
  fun mi ms t n d =>
    ⟨inMemoryIdf_of_lookup mi t n, inMemoryIdf_of_none mi t,
      sqliteIdf_after_update ms t d⟩

/-- Witness for `c2_idf_formulas` at the two-document corpora: the term
"X" is recorded with document frequency 1 in both backends. -/
theorem c2_idf_formulas_witness :
    assocLookup twoDocMemory.df "X" = some 1
    ∧ 0 < 1
    ∧ inMemoryIdfForToken twoDocMemory "X"
        = Real.log ((twoDocMemory.docs.length : ℝ) / ((1 : Nat) : ℝ))
    ∧ assocLookup twoDocSqlite.docFreq "X" = some 1
    ∧ (0 : Int) < 1
    ∧ sqliteIdfForToken (sqliteUpdateCache twoDocSqlite) "X" 1
        = Real.log
            (((twoDocSqlite.documents.length : ℝ) - ((1 : Int) : ℝ) + 1 / 2) /
              (((1 : Int) : ℝ) + 1 / 2)) :=
  ⟨by decide, by decide,
    (c2_idf_formulas twoDocMemory twoDocSqlite "X" 1 1).1 (by decide)
      (by decide),
    by decide, by decide,
    (c2_idf_formulas twoDocMemory twoDocSqlite "X" 1 1).2.2 (by decide)
      (by decide)⟩

/-- C2 counterexample: in the reachable two-document in-memory corpus
with DocumentFrequency["X"] = 1, the idf the search uses for "X" is
ln(2 / 1) = ln 2 > 0, which differs from the claimed BM25 value
ln((N − n(q) + 0.5) / (n(q) + 0.5)) = ln((2 − 1 + 0.5) / 1.5) = ln 1 = 0,
so the claim fails on the in-memory backend. -/
theorem c2_counterexample :
    inMemoryIdfForToken twoDocMemory "X"
      ≠ Real.log
          (((twoDocMemory.docs.length : ℝ) - ((1 : Nat) : ℝ) + 1 / 2) /
            (((1 : Nat) : ℝ) + 1 / 2)) := by
  have hl : assocLookup twoDocMemory.df "X" = some 1 := by decide
  have hlen : twoDocMemory.docs.length = 2 := by decide
  rw [inMemoryIdf_of_lookup twoDocMemory "X" 1 hl (by norm_num), hlen]
  intro hEq
  rw [show (((2 : Nat) : ℝ) / ((1 : Nat) : ℝ)) = 2 by norm_num] at hEq
  rw [show ((((2 : Nat) : ℝ) - ((1 : Nat) : ℝ) + 1 / 2) /
        (((1 : Nat) : ℝ) + 1 / 2)) = 1 by norm_num] at hEq
  rw [Real.log_one] at hEq
  exact absurd hEq (ne_of_gt (Real.log_pos (by norm_num)))

/-- C3: on the SQLite backend, `add(p, t, F)` twice in a row is not the
same as doing it once — the second add fails outright.  After the first
add-then-internal-remove, the `DocumentField` row of the old document is
still in the table (nothing ever deletes from `DocumentField`), the freed
rowid is reused, and the second add's `INSERT INTO DocumentField` hits
the UNIQUE(doc_id, field) constraint and returns an error.  The same
double add on the in-memory backend is idempotent. -/
theorem c3_sqlite_double_add_fails :
    isSqlOk (sqliteAddDocument emptySqlite "a.txt" 1 [("content", ['x'])])
      = true
    ∧ sqliteDocumentFieldOf
        ((sqliteAddDocument emptySqlite "a.txt" 1
            [("content", ['x'])]).map
          (fun m => sqliteRemoveDocument m "a.txt"))
      = some [⟨1, "content", 1⟩]
    ∧ isSqlErr
        ((sqliteAddDocument emptySqlite "a.txt" 1
            [("content", ['x'])]).bind
          (fun m => sqliteAddDocument m "a.txt" 1 [("content", ['x'])]))
      = true
    ∧ inMemoryAddDocument
        (inMemoryAddDocument emptyInMemory "a.txt" 1 [("content", ['x'])])
        "a.txt" 1 [("content", ['x'])]
      = inMemoryAddDocument emptyInMemory "a.txt" 1 [("content", ['x'])] := by
  refine ⟨by decide, by decide, by decide, by decide⟩

/-- C5: in both backends, `requires_reindexing(p, t)` is true exactly
when no document is stored at p or the stored last-modified timestamp is
strictly below t (so a tie yields false); stated for states whose stored
paths are distinct, which is the HashMap key invariant of the in-memory
backend and the UNIQUE(path) constraint of the SQLite backend. -/
theorem c5_requires_reindexing :
    ∀ (mi : InMemoryModel) (ms : SqliteModel) (p : String) (t : Nat),
      (mi.docs.map (fun e => e.1)).Nodup →
      (ms.documents.map (fun r => r.path)).Nodup →
      ((inMemoryRequiresReindexing mi p t = true ↔
          (∀ e ∈ mi.docs, e.1 ≠ p)
          ∨ ∃ d, (p, d) ∈ mi.docs ∧ d.lastModified < t)
        ∧ (sqliteRequiresReindexing ms p t = true ↔
          (∀ r ∈ ms.documents, r.path ≠ p)
          ∨ ∃ r ∈ ms.documents, r.path = p ∧ r.lastModified < t)) := by
  intro mi ms p t hndM hndS
  constructor
  · cases h : assocLookup mi.docs p with
    | none =>
      simp only [inMemoryRequiresReindexing, h]
      simp only [true_iff]
      exact Or.inl ((assocLookup_eq_none mi.docs p).mp h)
    | some d =>
      simp only [inMemoryRequiresReindexing, h, decide_eq_true_eq]
      constructor
      · intro hlt
        exact Or.inr ⟨d, (assocLookup_eq_some_iff_mem mi.docs p d hndM).mp h,
          hlt⟩
      · rintro (habs | ⟨d', hmem, hlt⟩)
        · exact absurd h
            (by rw [(assocLookup_eq_none mi.docs p).mpr habs]; simp)
        · have : assocLookup mi.docs p = some d' :=
            (assocLookup_eq_some_iff_mem mi.docs p d' hndM).mpr hmem
          rw [h] at this
          cases this
          exact hlt
  · cases h : ms.documents.find? (fun r => r.path == p) with
    | none =>
      simp only [sqliteRequiresReindexing, h]
      simp only [true_iff]
      refine Or.inl (fun r hr => ?_)
      have := List.find?_eq_none.mp h r hr
      simpa using this
    | some r =>
      simp only [sqliteRequiresReindexing, h, decide_eq_true_eq]
      have hrp : r.path = p := by
        have := List.find?_some h
        simpa using this
      have hrmem : r ∈ ms.documents := List.mem_of_find?_eq_some h
      constructor
      · intro hlt
        exact Or.inr ⟨r, hrmem, hrp, hlt⟩
      · rintro (habs | ⟨r', hmem', hrp', hlt'⟩)
        · exact absurd hrp (habs r hrmem)
        · have : r' = r :=
            List.inj_on_of_nodup_map hndS hmem' hrmem (by rw [hrp', hrp])
          rw [← this]
          exact hlt'

/-- Witness for `c5_requires_reindexing` at the two-document corpora with
path "a.txt" and timestamp 2 (both corpora store distinct paths). -/
theorem c5_requires_reindexing_witness :
    (twoDocMemory.docs.map (fun e => e.1)).Nodup
    ∧ (twoDocSqlite.documents.map (fun r => r.path)).Nodup
    ∧ ((inMemoryRequiresReindexing twoDocMemory "a.txt" 2 = true ↔
          (∀ e ∈ twoDocMemory.docs, e.1 ≠ "a.txt")
          ∨ ∃ d, ("a.txt", d) ∈ twoDocMemory.docs ∧ d.lastModified < 2)
        ∧ (sqliteRequiresReindexing twoDocSqlite "a.txt" 2 = true ↔
          (∀ r ∈ twoDocSqlite.documents, r.path ≠ "a.txt")
          ∨ ∃ r ∈ twoDocSqlite.documents,
              r.path = "a.txt" ∧ r.lastModified < 2)) :=
  ⟨by decide, by decide,
    c5_requires_reindexing twoDocMemory twoDocSqlite "a.txt" 2 (by decide)
      (by decide)⟩

/-- C7: the search endpoint answers 400 when the request body is not
valid UTF-8; on a successful search it answers 200 with Content-Type
`application/json; charset=utf-8` and the first (at most) 20 pairs of
the ranked result list; a failed search answers 500. -/
theorem c7_api_search_response :
    ∀ (okFn errFn : List Char → Except Unit (List (String × ℝ)))
      (q : List Char) (r : List (String × ℝ)),
      serveApiSearch none okFn = ⟨400, none, none⟩
      ∧ (okFn q = Except.ok r →
          serveApiSearch (some q) okFn
              = ⟨200, some "application/json; charset=utf-8",
                  some (r.take 20)⟩
            ∧ (r.take 20).length ≤ 20)
      ∧ (errFn q = Except.error () →
          serveApiSearch (some q) errFn = ⟨500, none, none⟩) := by
  intro okFn errFn q r
  refine ⟨rfl, fun h => ⟨?_, ?_⟩, fun h => ?_⟩
  · simp [serveApiSearch, h]
  · rw [List.length_take]
    exact Nat.min_le_left 20 r.length
  · simp [serveApiSearch, h]

/-- Witness for `c7_api_search_response`: a search returning one scored
path and a search failing with an internal error, on the empty query
body. -/
theorem c7_api_search_response_witness :
    ((fun _ : List Char =>
        (Except.ok [("a.txt", (1 : ℝ))] :
          Except Unit (List (String × ℝ)))) []
      = Except.ok [("a.txt", (1 : ℝ))])
    ∧ ((fun _ : List Char =>
        (Except.error () : Except Unit (List (String × ℝ)))) []
      = Except.error ())
    ∧ serveApiSearch none
        (fun _ =>
          (Except.ok [("a.txt", (1 : ℝ))] :
            Except Unit (List (String × ℝ))))
      = ⟨400, none, none⟩
    ∧ (serveApiSearch (some [])
          (fun _ =>
            (Except.ok [("a.txt", (1 : ℝ))] :
              Except Unit (List (String × ℝ))))
        = ⟨200, some "application/json; charset=utf-8",
            some ([("a.txt", (1 : ℝ))].take 20)⟩
      ∧ ([("a.txt", (1 : ℝ))].take 20).length ≤ 20)
    ∧ serveApiSearch (some [])
        (fun _ =>
          (Except.error () : Except Unit (List (String × ℝ))))
      = ⟨500, none, none⟩ :=
  ⟨rfl, rfl,
    (c7_api_search_response
      (fun _ => Except.ok [("a.txt", (1 : ℝ))])
      (fun _ => Except.error ()) [] [("a.txt", (1 : ℝ))]).1,
    (c7_api_search_response
      (fun _ => Except.ok [("a.txt", (1 : ℝ))])
      (fun _ => Except.error ()) [] [("a.txt", (1 : ℝ))]).2.1 rfl,
    (c7_api_search_response
      (fun _ => Except.ok [("a.txt", (1 : ℝ))])
      (fun _ => Except.error ()) [] [("a.txt", (1 : ℝ))]).2.2 rfl⟩

/-- C8: a query that is empty or consists only of whitespace tokenizes
to nothing, and `search_query` of both backends returns `Ok` with an
empty result list. -/
theorem c8_whitespace_query_empty :
    ∀ (mi : InMemoryModel) (ms : SqliteModel) (q : List Char),
      (∀ c ∈ q, c.isWhitespace = true) →
      (inMemorySearchQuery mi q).2 = Except.ok []
      ∧ (sqliteSearchQuery ms q).2 = Except.ok [] := by
  intro mi ms q h
  have ht : tokenize q = [] := tokenize_whitespace q h
  constructor
  · show Except.ok (inMemorySearchCore mi q) = Except.ok []
    unfold inMemorySearchCore
    rw [ht]
    simp
  · show (if tokenize q = [] then Except.ok [] else _) = Except.ok []
    rw [ht]
    simp

/-- Witness for `c8_whitespace_query_empty`: the three-blank query on the
two-document corpora. -/
theorem c8_whitespace_query_empty_witness :
    (∀ c ∈ (' ' :: ' ' :: ' ' :: []), c.isWhitespace = true)
    ∧ (inMemorySearchQuery twoDocMemory (' ' :: ' ' :: ' ' :: [])).2
        = Except.ok []
    ∧ (sqliteSearchQuery twoDocSqlite (' ' :: ' ' :: ' ' :: [])).2
        = Except.ok [] :=
  ⟨by decide,
    (c8_whitespace_query_empty twoDocMemory twoDocSqlite _ (by decide)).1,
    (c8_whitespace_query_empty twoDocMemory twoDocSqlite _ (by decide)).2⟩

/-- C9: removing a path at which no document is stored succeeds and is a
no-op on the whole state of either backend (in-memory: the documents and
document-frequency maps; SQLite: all four tables and the caches). -/
theorem c9_remove_nonexistent_noop :
    ∀ (mi : InMemoryModel) (ms : SqliteModel) (p : String),
      (∀ e ∈ mi.docs, e.1 ≠ p) →
      (∀ r ∈ ms.documents, r.path ≠ p) →
      inMemoryRemoveDocument mi p = mi
      ∧ sqliteRemoveDocument ms p = ms := by
  intro mi ms p hm hs
  constructor
  · have h1 : assocLookup mi.docs p = none :=
      (assocLookup_eq_none mi.docs p).mpr hm
    unfold inMemoryRemoveDocument
    rw [h1]
  · have h2 : ms.documents.find? (fun d => d.path == p) = none :=
      List.find?_eq_none.mpr (fun r hr => by simp [hs r hr])
    unfold sqliteRemoveDocument
    rw [h2]

/-- Witness for `c9_remove_nonexistent_noop`: removing the unindexed path
"missing.txt" from the two-document corpora. -/
theorem c9_remove_nonexistent_noop_witness :
    (∀ e ∈ twoDocMemory.docs, e.1 ≠ "missing.txt")
    ∧ (∀ r ∈ twoDocSqlite.documents, r.path ≠ "missing.txt")
    ∧ inMemoryRemoveDocument twoDocMemory "missing.txt" = twoDocMemory
    ∧ sqliteRemoveDocument twoDocSqlite "missing.txt" = twoDocSqlite :=
  ⟨by decide, by decide,
    (c9_remove_nonexistent_noop twoDocMemory twoDocSqlite "missing.txt"
      (by decide) (by decide)).1,
    (c9_remove_nonexistent_noop twoDocMemory twoDocSqlite "missing.txt"
      (by decide) (by decide)).2⟩

/-- C10: `search_query` never changes the indexed state.  For the SQLite
backend the four tables after a search are the tables before it (the
search only refreshes the three `RefCell` caches through
`update_cache`); the in-memory search takes the model by shared
reference and returns it untouched. -/
theorem c10_search_frame :
    ∀ (ms : SqliteModel) (mi : InMemoryModel) (q : List Char),
      (sqliteSearchQuery ms q).1.documents = ms.documents
      ∧ (sqliteSearchQuery ms q).1.documentField = ms.documentField
      ∧ (sqliteSearchQuery ms q).1.termFreq = ms.termFreq
      ∧ (sqliteSearchQuery ms q).1.docFreq = ms.docFreq
      ∧ (inMemorySearchQuery mi q).1 = mi :=
  fun _ _ _ => ⟨rfl, rfl, rfl, rfl, rfl⟩
